import Mathlib

/-!
Verification of the volatile-slice / volatile-buffer layer of the
fuse-backend-rs transport (`src/transport/file_volatile_slice.rs`).

Machine integers of type `usize` are modelled as `Nat` together with an
explicit bound `usizeLimit = 2^64`; the Rust `checked_add` / `checked_sub`
primitives are modelled as `Option`-returning functions on `Nat`.
-/

/-- The number of values of a 64-bit `usize`: additions overflow when the
mathematical result reaches this bound. -/
def usizeLimit : Nat := 2 ^ 64

/-- Model of Rust `usize::checked_add`: `none` exactly when the mathematical
sum does not fit the machine address width. -/
def checked_add (a b : Nat) : Option Nat :=
  if a + b < usizeLimit then some (a + b) else none

/-- Model of Rust `usize::checked_sub`: `none` exactly when the subtraction
would underflow. -/
def checked_sub (a b : Nat) : Option Nat :=
  if b ≤ a then some (a - b) else none

/-- Embeds `enum Error` of `file_volatile_slice.rs`: `OutOfBounds { addr }`,
`Overflow { base, offset }`, and the opaque wrapped volatile-slice error
(whose payload is irrelevant here, so it is modelled as a bare constructor). -/
inductive Error where
  | OutOfBounds (addr : Nat)
  | Overflow (base : Nat) (off : Nat)
  | VolatileSliceError
deriving DecidableEq, Repr

/-- Embeds `struct FileVolatileSlice`: an `addr`/`size` pair of `usize`
fields (the `PhantomData` lifetime marker carries no data and is dropped). -/
structure FileVolatileSlice where
  addr : Nat
  size : Nat
deriving DecidableEq, Repr

/-- Embeds `FileVolatileSlice::new(addr, size)`: stores the raw address and
size verbatim. -/
def FileVolatileSlice.new (addr size : Nat) : FileVolatileSlice :=
  { addr := addr, size := size }

/-- Embeds `FileVolatileSlice::len`: returns the `size` field. -/
def FileVolatileSlice.len (s : FileVolatileSlice) : Nat :=
  s.size

/-- Embeds `FileVolatileSlice::is_empty`: `size == 0`. -/
def FileVolatileSlice.is_empty (s : FileVolatileSlice) : Bool :=
  s.size == 0

/-- Embeds `FileVolatileSlice::offset(count)`:
`checked_add` on the address (`Overflow { base: addr, offset: count }` on
failure), then `checked_sub` on the size (`OutOfBounds { addr: new_addr }`
on failure), then `Self::new(new_addr, new_size)`. -/
def FileVolatileSlice.offset (s : FileVolatileSlice) (count : Nat) :
    Except Error FileVolatileSlice :=
  match checked_add s.addr count with
  | none => Except.error (Error.Overflow s.addr count)
  | some new_addr =>
    match checked_sub s.size count with
    | none => Except.error (Error.OutOfBounds new_addr)
    | some new_size => Except.ok (FileVolatileSlice.new new_addr new_size)

/-- Model of the external `VolatileSlice::write_slice(buf, addr)` primitive
that `file_volatile_slice.rs` delegates to (the vm-memory crate is outside
this repository; its exact-size contract is taken from the spec: the copy
succeeds only when the entire source buffer fits between `addr` and the end
of the region, and on success the region bytes `[addr, addr + buf.length)`
become `buf`). The region is represented by its byte contents `mem`; the
result is the updated region contents. -/
def vsWriteSlice (mem buf : List Nat) (addr : Nat) : Option (List Nat) :=
  if addr + buf.length ≤ mem.length then
    some (mem.take addr ++ buf ++ mem.drop (addr + buf.length))
  else
    none

/-- Embeds `<FileVolatileSlice as Bytes>::read_slice(buf, addr)` exactly as
written in the source (lines 161-163): it delegates to
`VolatileSlice::write_slice` — the write path — rather than to
`VolatileSlice::read_slice`. The state is `(view contents, caller buffer
contents)`; the result is the state after the call. -/
def FileVolatileSlice.read_slice (mem buf : List Nat) (addr : Nat) :
    Option (List Nat × List Nat) :=
  (vsWriteSlice mem buf addr).map (fun m => (m, buf))

/-- The bytes a correct exact-size read at `addr` must deliver into a
destination buffer of length `k`: the view contents at `[addr, addr + k)`. -/
def viewBytesAt (mem : List Nat) (addr k : Nat) : List Nat :=
  (mem.drop addr).take k

/-- Embeds `struct FileVolatileBuf`: `addr`/`size`/`cap`, all `usize`. -/
structure FileVolatileBuf where
  addr : Nat
  size : Nat
  cap : Nat
deriving DecidableEq, Repr

/-- Embeds `FileVolatileBuf::new(buf)`: address of the region, `size = 0`,
`cap = buf.len()`. The region is given by its address and byte contents. -/
def FileVolatileBuf.new (addr : Nat) (buf : List Nat) : FileVolatileBuf :=
  { addr := addr, size := 0, cap := buf.length }

/-- Embeds `FileVolatileBuf::from_raw(addr, size, cap)`: stores all three
fields verbatim, with no validation. -/
def FileVolatileBuf.from_raw (addr size cap : Nat) : FileVolatileBuf :=
  { addr := addr, size := size, cap := cap }

/-- Embeds `IoBuf::stable_ptr` for `FileVolatileBuf`: the `addr` field. -/
def FileVolatileBuf.stable_ptr (b : FileVolatileBuf) : Nat :=
  b.addr

/-- Embeds `IoBuf::bytes_init` for `FileVolatileBuf`: the `size` field. -/
def FileVolatileBuf.bytes_init (b : FileVolatileBuf) : Nat :=
  b.size

/-- Embeds `IoBuf::bytes_total` for `FileVolatileBuf`: the `cap` field. -/
def FileVolatileBuf.bytes_total (b : FileVolatileBuf) : Nat :=
  b.cap

/-- Embeds `IoBufMut::set_init(pos)` for `FileVolatileBuf`: sets
`size = pos`, leaving `addr` and `cap` unchanged. -/
def FileVolatileBuf.set_init (b : FileVolatileBuf) (pos : Nat) : FileVolatileBuf :=
  { b with size := pos }

/-- Embeds `FileVolatileSlice::borrow_mut`: builds a `FileVolatileBuf` with
the slice's `addr`, `size = 0`, and `cap` equal to the slice's `size`. -/
def FileVolatileSlice.borrow_mut (s : FileVolatileSlice) : FileVolatileBuf :=
  { addr := s.addr, size := 0, cap := s.size }

/-- Comparison of two `offset` outcomes used for the offset-additivity
claim: equal views on success, and on failure the same failure mode
(both `Overflow`). -/
def sameOutcome : Except Error FileVolatileSlice → Except Error FileVolatileSlice → Prop
  | Except.ok v, Except.ok w => v = w
  | Except.error (Error.Overflow _ _), Except.error (Error.Overflow _ _) => True
  | _, _ => False

/-- Characterisation of `offset` shared by several claim proofs: overflow of
the address addition reports `Overflow`, then an offset past the length
reports `OutOfBounds`, and otherwise the new geometry is returned. -/
theorem offset_eq (a n count : Nat) :
    (FileVolatileSlice.new a n).offset count =
      if usizeLimit ≤ a + count then Except.error (Error.Overflow a count)
      else if n < count then Except.error (Error.OutOfBounds (a + count))
      else Except.ok (FileVolatileSlice.new (a + count) (n - count)) := by
  simp only [FileVolatileSlice.offset, FileVolatileSlice.new, checked_add, checked_sub]
  by_cases h1 : a + count < usizeLimit
  · by_cases h2 : count ≤ n
    · rw [if_pos h1, if_pos h2, if_neg (show ¬ usizeLimit ≤ a + count from by omega),
        if_neg (show ¬ n < count from by omega)]
    · rw [if_pos h1, if_neg h2, if_neg (show ¬ usizeLimit ≤ a + count from by omega),
        if_pos (show n < count from by omega)]
  · rw [if_neg h1, if_pos (show usizeLimit ≤ a + count from by omega)]

/-- Claim C1 (code bug): at the concrete state where the view holds bytes
`[7, 9]` and the caller's destination buffer holds `[0, 0]`, `read_slice`
at offset 0 succeeds but leaves the destination buffer at `[0, 0]` instead
of filling it with the view bytes `[7, 9]`, and it overwrites the view
contents with the destination buffer — the read path performs a write. -/
theorem read_slice_writes_instead_of_reading :
    FileVolatileSlice.read_slice [7, 9] [0, 0] 0 = some ([0, 0], [0, 0]) ∧
    viewBytesAt [7, 9] 0 2 = [7, 9] ∧
    ([0, 0] : List Nat) ≠ [7, 9] := by
  refine ⟨rfl, rfl, ?_⟩
  decide

/-- Claim C2: `offset(count)` on a view with address `a` and length `n`
returns `Overflow { base: a, offset: count }` when `a + count` overflows the
address width, otherwise `OutOfBounds` when `count > n`, and otherwise a new
view with address `a + count` and length `n - count`. -/
theorem offset_spec (a n count : Nat) :
    (FileVolatileSlice.new a n).offset count =
      if usizeLimit ≤ a + count then Except.error (Error.Overflow a count)
      else if n < count then Except.error (Error.OutOfBounds (a + count))
      else Except.ok (FileVolatileSlice.new (a + count) (n - count)) :=
  offset_eq a n count

/-- Claim C3: sub-slicing is offset-additive — for `o1 ≤ o2 ≤ n`, slicing by
`o1` and then by `o2 - o1` yields the same view as slicing directly by `o2`
when both succeed, and otherwise both fail with the same failure mode
(`Overflow`). -/
theorem offset_additive (a n o1 o2 : Nat) (h1 : o1 ≤ o2) (h2 : o2 ≤ n) :
    sameOutcome
      (Except.bind ((FileVolatileSlice.new a n).offset o1)
        (fun s1 => s1.offset (o2 - o1)))
      ((FileVolatileSlice.new a n).offset o2) := by
  rw [offset_eq a n o1, offset_eq a n o2]
  by_cases ha1 : usizeLimit ≤ a + o1
  · have ha2 : usizeLimit ≤ a + o2 := by omega
    simp [ha1, ha2, Except.bind, sameOutcome]
  · have hn1 : ¬ n < o1 := by omega
    by_cases ha2 : usizeLimit ≤ a + o2
    · simp only [ha1, if_false, hn1, if_false, ha2, if_true, if_neg, if_pos]
      simp only [Except.bind, offset_eq]
      have hov : usizeLimit ≤ (a + o1) + (o2 - o1) := by omega
      simp [FileVolatileSlice.new, hov, sameOutcome]
    · have hn2 : ¬ n < o2 := by omega
      simp only [ha1, if_false, hn1, ha2, hn2]
      simp only [Except.bind, offset_eq]
      have hov : ¬ usizeLimit ≤ (a + o1) + (o2 - o1) := by omega
      have hsz : ¬ (n - o1) < (o2 - o1) := by omega
      simp [FileVolatileSlice.new, hov, hsz, sameOutcome]
      omega

/-- Witness for C3 at `a = 3`, `n = 5`, `o1 = 1`, `o2 = 4`. -/
theorem offset_additive_witness :
    sameOutcome
      (Except.bind ((FileVolatileSlice.new 3 5).offset 1)
        (fun s1 => s1.offset (4 - 1)))
      ((FileVolatileSlice.new 3 5).offset 4) :=
  offset_additive 3 5 1 4 (by decide) (by decide)

/-- Claim C4: sub-slicing past the end fails — for `count > n`, `offset`
returns either the `Overflow` error or the `OutOfBounds` error, never a
view. -/
theorem offset_past_end_fails (a n count : Nat) (h : n < count) :
    (FileVolatileSlice.new a n).offset count = Except.error (Error.Overflow a count) ∨
    (FileVolatileSlice.new a n).offset count = Except.error (Error.OutOfBounds (a + count)) := by
  rw [offset_eq a n count]
  by_cases ha : usizeLimit ≤ a + count
  · simp [ha]
  · simp [ha, h]

/-- Witness for C4: a 1024-byte view sliced by 2048 returns an error. -/
theorem offset_past_end_fails_witness :
    (FileVolatileSlice.new 0 1024).offset 2048 =
      Except.error (Error.Overflow 0 2048) ∨
    (FileVolatileSlice.new 0 1024).offset 2048 =
      Except.error (Error.OutOfBounds (0 + 2048)) :=
  offset_past_end_fails 0 1024 2048 (by decide)

/-- Claim C5: sub-slicing exactly at the view's length succeeds (when the
address addition does not overflow) and yields an empty view of length 0. -/
theorem offset_at_length_empty (a n : Nat) (h : a + n < usizeLimit) :
    (FileVolatileSlice.new a n).offset n = Except.ok (FileVolatileSlice.new (a + n) 0) ∧
    (FileVolatileSlice.new (a + n) 0).len = 0 ∧
    (FileVolatileSlice.new (a + n) 0).is_empty = true := by
  rw [offset_eq a n n]
  have ha : ¬ usizeLimit ≤ a + n := by omega
  simp [ha, FileVolatileSlice.new, FileVolatileSlice.len, FileVolatileSlice.is_empty]

/-- Witness for C5 at `a = 0`, `n = 1024`. -/
theorem offset_at_length_empty_witness :
    (FileVolatileSlice.new 0 1024).offset 1024 =
      Except.ok (FileVolatileSlice.new (0 + 1024) 0) ∧
    (FileVolatileSlice.new (0 + 1024) 0).len = 0 ∧
    (FileVolatileSlice.new (0 + 1024) 0).is_empty = true :=
  offset_at_length_empty 0 1024 (by decide)

/-- Claim C6: a freshly constructed view reports `len() == size` and
`is_empty() == (size == 0)`. -/
theorem new_len_is_empty (addr size : Nat) :
    (FileVolatileSlice.new addr size).len = size ∧
    (FileVolatileSlice.new addr size).is_empty = (size == 0) :=
  ⟨rfl, rfl⟩

/-- Claim C7: a buffer freshly constructed from a region of length `N`
reports `bytes_total() == N` and `bytes_init() == 0`; after `set_init(k)`
with `k ≤ N`, `bytes_init() == k` while `bytes_total()` is still `N`. -/
theorem buf_new_set_init (addr : Nat) (buf : List Nat) (k : Nat)
    (hk : k ≤ buf.length) :
    (FileVolatileBuf.new addr buf).bytes_total = buf.length ∧
    (FileVolatileBuf.new addr buf).bytes_init = 0 ∧
    ((FileVolatileBuf.new addr buf).set_init k).bytes_init = k ∧
    ((FileVolatileBuf.new addr buf).set_init k).bytes_total = buf.length :=
  ⟨rfl, rfl, rfl, rfl⟩

/-- Witness for C7 at a 3-byte region and `k = 2`. -/
theorem buf_new_set_init_witness :
    (FileVolatileBuf.new 0 [5, 6, 7]).bytes_total = 3 ∧
    (FileVolatileBuf.new 0 [5, 6, 7]).bytes_init = 0 ∧
    ((FileVolatileBuf.new 0 [5, 6, 7]).set_init 2).bytes_init = 2 ∧
    ((FileVolatileBuf.new 0 [5, 6, 7]).set_init 2).bytes_total = 3 :=
  buf_new_set_init 0 [5, 6, 7] 2 (by decide)

/-- Claim C8: the `size ≤ cap` invariant — `new` and `borrow_mut` (the
construction paths without a caller-asserted size/capacity precondition)
establish it, and `set_init(pos)` preserves it under its precondition
`pos ≤ cap`. -/
theorem buf_invariant (addr : Nat) (buf : List Nat) (s : FileVolatileSlice)
    (b : FileVolatileBuf) (pos : Nat) (hpos : pos ≤ b.cap) :
    (FileVolatileBuf.new addr buf).size ≤ (FileVolatileBuf.new addr buf).cap ∧
    s.borrow_mut.size ≤ s.borrow_mut.cap ∧
    (b.set_init pos).size ≤ (b.set_init pos).cap := by
  refine ⟨?_, ?_, ?_⟩
  · simp [FileVolatileBuf.new]
  · simp [FileVolatileSlice.borrow_mut]
  · simpa [FileVolatileBuf.set_init] using hpos

/-- Witness for C8 at a 2-byte region, a concrete slice, and a concrete
buffer with `pos = 3 ≤ cap = 4`. -/
theorem buf_invariant_witness :
    (FileVolatileBuf.new 0 [1, 2]).size ≤ (FileVolatileBuf.new 0 [1, 2]).cap ∧
    (FileVolatileSlice.new 9 7).borrow_mut.size ≤
      (FileVolatileSlice.new 9 7).borrow_mut.cap ∧
    ((FileVolatileBuf.from_raw 0 0 4).set_init 3).size ≤
      ((FileVolatileBuf.from_raw 0 0 4).set_init 3).cap :=
  buf_invariant 0 [1, 2] (FileVolatileSlice.new 9 7)
    (FileVolatileBuf.from_raw 0 0 4) 3 (by decide)

/-- Claim C9: borrowing a view as a buffer copies the geometry exactly —
the stable pointer equals the view's address, `bytes_total` equals the
view's length, and `bytes_init` is 0. The view itself is a pure value and
is unchanged. -/
theorem borrow_mut_geometry (s : FileVolatileSlice) :
    s.borrow_mut.stable_ptr = s.addr ∧
    s.borrow_mut.bytes_total = s.len ∧
    s.borrow_mut.bytes_init = 0 :=
  ⟨rfl, rfl, rfl⟩

/-- Claim C10: `from_raw` performs no validation — for every
`(addr, size, cap)` triple it reports `bytes_init() == size` and
`bytes_total() == cap` verbatim, so with `size > cap` (for example
`(0, 5, 3)`) the used-length-at-most-capacity invariant is silently
violated. -/
theorem from_raw_no_validation :
    (∀ addr size cap : Nat,
      (FileVolatileBuf.from_raw addr size cap).bytes_init = size ∧
      (FileVolatileBuf.from_raw addr size cap).bytes_total = cap) ∧
    (FileVolatileBuf.from_raw 0 5 3).bytes_total <
      (FileVolatileBuf.from_raw 0 5 3).bytes_init := by
  refine ⟨fun addr size cap => ⟨rfl, rfl⟩, ?_⟩
  decide
